import Mathlib

/-!
# Verification of the Palm Industry Content Agent

A shallow embedding of `src/app.py` (a single-page Streamlit content tool) and
proofs about its caption-generation fallback procedure, image lookup, button
orchestration, content-record store and CSV export.

External services (the Gemini text-generation API and the Unsplash search API)
are modelled as explicit environments passed to the embedded functions: a
function from model name and prompt to an outcome for Gemini, and a function
from the single search request to a response for Unsplash.  Everything else is
translated directly from the source.
-/

namespace PalmAgent

/-- `containsSubstr s sub` is Python's `sub in s`, decided on the underlying
character lists. -/
def containsSubstr (s sub : String) : Bool :=
  decide (sub.data <:+: s.data)

/-- Outcome of one `model.generate_content(prompt)` call: either the response
text or a raised exception carrying `str(e)`. -/
inductive GenOutcome where
  | ok (text : String)
  | err (msg : String)
deriving DecidableEq, Repr

/-- The Gemini environment: what `generate_content` does for a given model
name and prompt during this request. -/
def GeminiEnv := String → String → GenOutcome

/-- The prompt built by `generate_caption` (the f-string at app.py:133-137). -/
def buildPrompt (topic tone : String) (max_length : Nat) : String :=
  "Create a " ++ tone.toLower ++ " social media caption about \"" ++ topic ++
  "\" for the palm industry. \n        The caption should be engaging, informative, and suitable for platforms like Instagram or LinkedIn.\n        Maximum length: " ++
  toString max_length ++
  " words.\n        Include relevant hashtags at the end.\n        Focus on the palm industry context."

/-- The primary model name (app.py:131). -/
def primaryModel : String := "gemini-1.5-flash-latest"

/-- The declared fallback model identifiers, in the order the nested
`try` blocks attempt them (app.py:149, app.py:155). -/
def fallbackModels : List String := ["models/gemini-1.5-flash", "models/gemini-1.5-pro"]

/-- The not-found classification at app.py:146:
`"404" in error_msg or "not found" in error_msg`. -/
def notFoundClass (error_msg : String) : Bool :=
  containsSubstr error_msg "404" || containsSubstr error_msg "not found"

/-- The terminal error string returned when every fallback fails (app.py:159). -/
def notFoundTerminalError (error_msg : String) : String :=
  "❌ Error: Unable to find working Gemini model.\n\nOriginal error: " ++ error_msg ++
  "\n\nPlease verify your API key at: https://aistudio.google.com/app/apikey\n\nTip: Click 'Test Gemini API' button in sidebar to see available models."

/-- The terminal error string for a failure that is not of the not-found
class (app.py:161). -/
def genericError (error_msg : String) : String :=
  "❌ Error generating caption: " ++ error_msg ++ "\n\nPlease check your API key."

/-- `generate_caption` (app.py:126-161), instrumented with the list of model
names on which `generate_content` was invoked, in order.  The control flow is
the nested `try/except` structure of the source: primary model first; on a
not-found-class failure, `models/gemini-1.5-flash`, then `models/gemini-1.5-pro`;
any other failure returns the generic error immediately. -/
def generate_caption_attempts (topic tone : String) (max_length : Nat)
    (env : GeminiEnv) : String × List String :=
  let prompt := buildPrompt topic tone max_length
  match env primaryModel prompt with
  | .ok text => (text, [primaryModel])
  | .err error_msg =>
    if notFoundClass error_msg then
      match env "models/gemini-1.5-flash" prompt with
      | .ok text => (text, [primaryModel, "models/gemini-1.5-flash"])
      | .err _ =>
        match env "models/gemini-1.5-pro" prompt with
        | .ok text => (text, [primaryModel, "models/gemini-1.5-flash", "models/gemini-1.5-pro"])
        | .err _ =>
          (notFoundTerminalError error_msg,
           [primaryModel, "models/gemini-1.5-flash", "models/gemini-1.5-pro"])
    else
      (genericError error_msg, [primaryModel])

/-- The return value of `generate_caption` (app.py:126-161). -/
def generate_caption (topic tone : String) (max_length : Nat)
    (env : GeminiEnv) : String :=
  (generate_caption_attempts topic tone max_length env).1

/-- `some text` when the flow of `generate_caption` ends in a successful
`response.text`, `none` when it ends in one of the two terminal error
returns. -/
def caption_outcome (topic tone : String) (max_length : Nat)
    (env : GeminiEnv) : Option String :=
  let prompt := buildPrompt topic tone max_length
  match env primaryModel prompt with
  | .ok text => some text
  | .err error_msg =>
    if notFoundClass error_msg then
      match env "models/gemini-1.5-flash" prompt with
      | .ok text => some text
      | .err _ =>
        match env "models/gemini-1.5-pro" prompt with
        | .ok text => some text
        | .err _ => none
    else none

/-- A uniform retry loop over an ordered list of candidate model identifiers:
try each in order, stop at the first success, and if the list is exhausted
return the terminal error built from the original failure detail.  The second
component records which candidates were attempted, in order. -/
def tryInOrder (prompt orig : String) (env : GeminiEnv) :
    List String → String × List String
  | [] => (notFoundTerminalError orig, [])
  | m :: ms =>
    match env m prompt with
    | .ok text => (text, [m])
    | .err _ =>
      let r := tryInOrder prompt orig env ms
      (r.1, m :: r.2)

/-! ## Image lookup (`fetch_unsplash_image`, app.py:164-192) -/

/-- One photo object of the Unsplash response, with the nested fields the
code reads. -/
structure UnsplashPhoto where
  urls_regular : String
  urls_thumb : String
  user_name : String
  user_links_html : String
  links_download : String
deriving DecidableEq, Repr

/-- Outcome of the single HTTP search request: a parsed results array, or any
request failure (network error, non-2xx status via `raise_for_status`,
malformed body). -/
inductive UnsplashOutcome where
  | ok (results : List UnsplashPhoto)
  | fail (msg : String)
deriving DecidableEq, Repr

/-- The search request `fetch_unsplash_image` issues (app.py:166-174). -/
structure UnsplashRequest where
  url : String
  client_id : String
  query : String
  per_page : Nat
  orientation : String
deriving DecidableEq, Repr

/-- The Unsplash environment: the response to a request during this run. -/
def UnsplashEnv := UnsplashRequest → UnsplashOutcome

/-- The request built from the topic and credential: query string is the
topic prefixed with the fixed domain keyword `palm`, page size 1, landscape
orientation (app.py:166-172). -/
def mkUnsplashRequest (query api_key : String) : UnsplashRequest :=
  { url := "https://api.unsplash.com/search/photos"
    client_id := api_key
    query := "palm " ++ query
    per_page := 1
    orientation := "landscape" }

/-- The dictionary `fetch_unsplash_image` returns on a non-empty result set
(app.py:181-187). -/
structure ImageData where
  url : String
  thumb_url : String
  photographer : String
  photographer_url : String
  download_url : String
deriving DecidableEq, Repr

/-- `fetch_unsplash_image` (app.py:164-192): issues one search request; on a
non-empty result set returns the first photo's fields, on an empty result set
or any request failure returns `none` (the `except` clause shows a message and
returns `None`).  The second component records the requests issued. -/
def fetch_unsplash_image (query api_key : String) (net : UnsplashEnv) :
    Option ImageData × List UnsplashRequest :=
  let req := mkUnsplashRequest query api_key
  (match net req with
   | .fail _ => none
   | .ok [] => none
   | .ok (photo :: _) =>
     some { url := photo.urls_regular
            thumb_url := photo.urls_thumb
            photographer := photo.user_name
            photographer_url := photo.user_links_html
            download_url := photo.links_download },
   [req])

/-! ## Content records and the button handler (app.py:195-245) -/

/-- One row of `st.session_state.generated_content` (app.py:225-233).  The
image fields are `Option` because the spec's data model allows their absence;
the code's append always supplies them. -/
structure ContentRecord where
  timestamp : String
  topic : String
  tone : String
  caption : String
  image_url : Option String
  photographer : Option String
  photographer_url : Option String
deriving DecidableEq, Repr

/-- What the handler paints into the content placeholder. -/
inductive Display where
  | configError (msg : String)
  | fullContent (img : ImageData) (caption : String)
  | captionOnly (caption : String)
  | errorMsg (caption : String)
deriving DecidableEq, Repr

/-- An outbound remote call. -/
inductive Call where
  | gemini
  | unsplash
deriving DecidableEq, Repr

/-- Result of one press of the generate button. -/
structure HandlerResult where
  display : Display
  store : List ContentRecord
  calls : List Call
deriving DecidableEq, Repr

/-- The `generate_btn` handler (app.py:195-245): validate the two credentials
and the topic; generate the caption; branch on `"❌" not in caption`; fetch the
image; append a record only when an image was found.  `now` is the timestamp
string taken at append time; `calls` lists the outbound remote calls made. -/
def generate_btn_handler (gemini_api_key unsplash_api_key topic tone : String)
    (max_length : Nat) (env : GeminiEnv) (net : UnsplashEnv) (now : String)
    (store : List ContentRecord) : HandlerResult :=
  if gemini_api_key = "" then
    { display := .configError "⚠️ Please enter your Google Gemini API key in the sidebar."
      store := store, calls := [] }
  else if unsplash_api_key = "" then
    { display := .configError "⚠️ Please enter your Unsplash API key in the sidebar."
      store := store, calls := [] }
  else if topic = "" then
    { display := .configError "⚠️ Please enter a topic."
      store := store, calls := [] }
  else
    let caption := generate_caption topic tone max_length env
    if containsSubstr caption "❌" = false then
      match (fetch_unsplash_image topic unsplash_api_key net).1 with
      | some image_data =>
        { display := .fullContent image_data caption
          store := store ++ [{ timestamp := now
                               topic := topic
                               tone := tone
                               caption := caption
                               image_url := some image_data.url
                               photographer := some image_data.photographer
                               photographer_url := some image_data.photographer_url }]
          calls := [.gemini, .unsplash] }
      | none =>
        { display := .captionOnly caption
          store := store, calls := [.gemini, .unsplash] }
    else
      { display := .errorMsg caption
        store := store, calls := [.gemini] }

/-- The clear-history handler (app.py:279-281):
`st.session_state.generated_content = []`, unconditionally. -/
def clear_history (_store : List ContentRecord) : List ContentRecord := []

/-- The four-column history table (app.py:256-260):
`df[['timestamp', 'topic', 'tone', 'caption']]`. -/
def asTable (store : List ContentRecord) : List (String × String × String × String) :=
  store.map fun r => (r.timestamp, r.topic, r.tone, r.caption)

/-- All inputs of one press of the generate button. -/
structure GenInputs where
  gemini_api_key : String
  unsplash_api_key : String
  topic : String
  tone : String
  max_length : Nat
  env : GeminiEnv
  net : UnsplashEnv
  now : String

/-- One session action touching the record store. -/
inductive SessionOp where
  | generate (i : GenInputs)
  | clearHistory

/-- Effect of a session action on the record store. -/
def runOp (store : List ContentRecord) : SessionOp → List ContentRecord
  | .generate i =>
    (generate_btn_handler i.gemini_api_key i.unsplash_api_key i.topic i.tone
      i.max_length i.env i.net i.now store).store
  | .clearHistory => clear_history store

/-- The record store reached from the empty session-start store after a
sequence of session actions (app.py:90-91 initialises it empty). -/
def runSession (ops : List SessionOp) : List ContentRecord :=
  ops.foldl runOp []

/-- A record whose three image fields are all present. -/
def populated (r : ContentRecord) : Prop :=
  r.image_url.isSome ∧ r.photographer.isSome ∧ r.photographer_url.isSome

instance (r : ContentRecord) : Decidable (populated r) := by
  unfold populated; infer_instance

/-! ## CSV export (app.py:253-276)

`pd.DataFrame(records).to_csv(buffer, index=False)`: a header row with the
column names (the dict keys in insertion order), then one row per record in
insertion order; fields are comma-delimited and a field containing a comma, a
double quote, a newline or a carriage return is wrapped in double quotes with
embedded quotes doubled (minimal quoting).  We also define a CSV reader and
prove that it inverts the export. -/

/-- Does this field need quoting under minimal quoting? -/
def needsQuoting (s : List Char) : Bool :=
  s.any fun c => c = ',' || c = '"' || c = '\n' || c = '\r'

/-- Double every double quote. -/
def escapeQuotes : List Char → List Char
  | [] => []
  | c :: cs => if c = '"' then '"' :: '"' :: escapeQuotes cs else c :: escapeQuotes cs

/-- Serialise one field under minimal quoting. -/
def encodeField (s : List Char) : List Char :=
  if needsQuoting s then '"' :: (escapeQuotes s ++ ['"']) else s

/-- Serialise one row: fields joined by commas, terminated by a newline. -/
def encodeRow : List (List Char) → List Char
  | [] => ['\n']
  | [f] => encodeField f ++ ['\n']
  | f :: f2 :: fs => encodeField f ++ ',' :: encodeRow (f2 :: fs)

/-- The CSV column headers: the record dict's keys in insertion order
(app.py:226-232). -/
def csvHeaderFields : List String :=
  ["timestamp", "topic", "tone", "caption", "image_url", "photographer", "photographer_url"]

/-- The cell values of one record, in column order; an absent optional field
prints as the empty cell. -/
def recordFields (r : ContentRecord) : List String :=
  [r.timestamp, r.topic, r.tone, r.caption,
   r.image_url.getD "", r.photographer.getD "", r.photographer_url.getD ""]

/-- `exportCsv`: the full CSV text for the current store. -/
def exportCsv (store : List ContentRecord) : String :=
  ⟨(csvHeaderFields.map String.data :: store.map fun r => (recordFields r).map String.data).flatMap
      encodeRow⟩

/-! ### A CSV reader, to state the round-trip property -/

/-- Read the remainder of a quoted field (the opening quote already
consumed): a doubled quote is a literal quote, a lone quote closes the
field. -/
def readQuoted : List Char → Option (List Char × List Char)
  | [] => none
  | c :: cs =>
    if c = '"' then
      match cs with
      | [] => some ([], [])
      | c2 :: cs2 =>
        if c2 = '"' then (readQuoted cs2).map fun p => ('"' :: p.1, p.2)
        else some ([], c2 :: cs2)
    else
      (readQuoted cs).map fun p => (c :: p.1, p.2)

/-- Read an unquoted field: everything up to the next comma or newline. -/
def readBare : List Char → List Char × List Char
  | [] => ([], [])
  | c :: cs =>
    if c = ',' ∨ c = '\n' then ([], c :: cs)
    else
      let p := readBare cs
      (c :: p.1, p.2)

/-- Read one field: quoted if it opens with a double quote, bare otherwise.
Fails on exhausted input (every well-formed row ends in a newline). -/
def readField : List Char → Option (List Char × List Char)
  | [] => none
  | c :: cs =>
    if c = '"' then readQuoted cs
    else some (readBare (c :: cs))

/-- Read one row: at most `fuel` fields separated by commas, closed by a
newline. -/
def readRow : Nat → List Char → Option (List (List Char) × List Char)
  | 0, _ => none
  | fuel + 1, input =>
    match readField input with
    | none => none
    | some (f, rest) =>
      match rest with
      | [] => none
      | c :: rest2 =>
        if c = ',' then (readRow fuel rest2).map fun p => (f :: p.1, p.2)
        else if c = '\n' then some ([f], rest2)
        else none

/-- Read all rows of the input. -/
def readRows : Nat → List Char → Option (List (List (List Char)))
  | _, [] => some []
  | 0, _ :: _ => none
  | fuel + 1, c :: cs =>
    match readRow ((c :: cs).length + 1) (c :: cs) with
    | none => none
    | some (row, rest) => (readRows fuel rest).map fun rows => row :: rows

/-- Parse a CSV text into its rows of fields. -/
def parseCsv (s : String) : Option (List (List String)) :=
  (readRows (s.data.length + 1) s.data).map fun rows => rows.map (List.map String.mk)

/-- Rebuild a fully-populated record from its seven cell values. -/
def recordOfFields : List String → Option ContentRecord
  | [timestamp, topic, tone, caption, image_url, photographer, photographer_url] =>
    some { timestamp := timestamp, topic := topic, tone := tone, caption := caption
           image_url := some image_url, photographer := some photographer
           photographer_url := some photographer_url }
  | _ => none

/-! ## Substring helper lemmas -/

theorem containsSubstr_of_data_infix (s sub : String) (h : sub.data <:+: s.data) :
    containsSubstr s sub = true := by
  simpa [containsSubstr] using h

theorem containsSubstr_append_left (a b sub : String) (h : containsSubstr a sub = true) :
    containsSubstr (a ++ b) sub = true := by
  apply containsSubstr_of_data_infix
  rw [String.data_append]
  exact (by simpa [containsSubstr] using h : sub.data <:+: a.data).trans
    (List.prefix_append _ _).isInfix

theorem containsSubstr_append_right (a b sub : String) (h : containsSubstr b sub = true) :
    containsSubstr (a ++ b) sub = true := by
  apply containsSubstr_of_data_infix
  rw [String.data_append]
  exact (by simpa [containsSubstr] using h : sub.data <:+: b.data).trans
    (List.suffix_append _ _).isInfix

theorem containsSubstr_middle (a m b : String) : containsSubstr (a ++ m ++ b) m = true := by
  apply containsSubstr_of_data_infix
  rw [String.data_append, String.data_append]
  exact List.infix_append _ _ _

theorem genericError_contains_tag (m : String) :
    containsSubstr (genericError m) "❌" = true := by
  unfold genericError
  exact containsSubstr_append_left _ _ _ (containsSubstr_append_left _ _ _ (by decide))

theorem genericError_contains_orig (m : String) :
    containsSubstr (genericError m) m = true := by
  unfold genericError
  exact containsSubstr_middle _ _ _

theorem notFoundTerminalError_contains_tag (m : String) :
    containsSubstr (notFoundTerminalError m) "❌" = true := by
  unfold notFoundTerminalError
  exact containsSubstr_append_left _ _ _ (containsSubstr_append_left _ _ _ (by decide))

theorem notFoundTerminalError_contains_orig (m : String) :
    containsSubstr (notFoundTerminalError m) m = true := by
  unfold notFoundTerminalError
  exact containsSubstr_middle _ _ _

theorem notFoundTerminalError_contains_guidance (m : String) :
    containsSubstr (notFoundTerminalError m) "Please verify your API key" = true := by
  unfold notFoundTerminalError
  exact containsSubstr_append_right _ _ _ (by decide)

/-! ## Caption generator lemmas -/

theorem generate_caption_of_outcome_some (topic tone : String) (max_length : Nat)
    (env : GeminiEnv) (text : String)
    (h : caption_outcome topic tone max_length env = some text) :
    generate_caption topic tone max_length env = text := by
  unfold caption_outcome at h
  unfold generate_caption generate_caption_attempts
  cases hp : env primaryModel (buildPrompt topic tone max_length) with
  | ok t => simp [hp] at h ⊢; exact h
  | err msg =>
    simp [hp] at h ⊢
    by_cases hnf : notFoundClass msg
    · simp [hnf] at h ⊢
      cases h1 : env "models/gemini-1.5-flash" (buildPrompt topic tone max_length) with
      | ok t => simp [h1] at h ⊢; exact h
      | err m1 =>
        simp [h1] at h ⊢
        cases h2 : env "models/gemini-1.5-pro" (buildPrompt topic tone max_length) with
        | ok t => simp [h2] at h ⊢; exact h
        | err m2 => simp [h2] at h
    · simp [hnf] at h

theorem generate_caption_tag_of_outcome_none (topic tone : String) (max_length : Nat)
    (env : GeminiEnv)
    (h : caption_outcome topic tone max_length env = none) :
    containsSubstr (generate_caption topic tone max_length env) "❌" = true := by
  unfold caption_outcome at h
  unfold generate_caption generate_caption_attempts
  cases hp : env primaryModel (buildPrompt topic tone max_length) with
  | ok t => simp [hp] at h
  | err msg =>
    simp [hp] at h ⊢
    by_cases hnf : notFoundClass msg
    · simp [hnf] at h ⊢
      cases h1 : env "models/gemini-1.5-flash" (buildPrompt topic tone max_length) with
      | ok t => simp [h1] at h
      | err m1 =>
        simp [h1] at h ⊢
        cases h2 : env "models/gemini-1.5-pro" (buildPrompt topic tone max_length) with
        | ok t => simp [h2] at h
        | err m2 => simp [h2]; exact notFoundTerminalError_contains_tag msg
    · simp [hnf]
      exact genericError_contains_tag msg

/-! ## Concrete environments used by witnesses and counterexamples -/

/-- Every model call fails with a not-found-class error. -/
def envAllFail : GeminiEnv := fun _ _ => .err "404 model not found"

/-- Every model call fails with a quota error (not of the not-found class). -/
def envQuota : GeminiEnv := fun _ _ => .err "429 quota exceeded for this project"

/-- The caption succeeds on the primary model with text that happens to
contain the error-tag character. -/
def envEmojiCaption : GeminiEnv := fun _ _ =>
  .ok "Palm oil update: ❌ no harvest delays this week"

/-- The caption succeeds on the primary model with ordinary text. -/
def envOkCaption : GeminiEnv := fun _ _ =>
  .ok "Golden dates ripening under desert palms #PalmIndustry"

/-- The image search always returns an empty result set. -/
def netEmptyResults : UnsplashEnv := fun _ => .ok []

/-- The image search always fails. -/
def netFailure : UnsplashEnv := fun _ => .fail "ConnectionError"

/-- A fixed photo returned by the image search. -/
def photoW : UnsplashPhoto :=
  { urls_regular := "https://images.unsplash.com/photo-1?w=1080"
    urls_thumb := "https://images.unsplash.com/photo-1?w=200"
    user_name := "Amira Haddad"
    user_links_html := "https://unsplash.com/@amira"
    links_download := "https://unsplash.com/photos/1/download" }

/-- The image search always returns exactly `photoW`. -/
def netOnePhoto : UnsplashEnv := fun _ => .ok [photoW]

/-- C2: if the primary model ('gemini-1.5-flash-latest') fails with a
not-found-class failure, `generate_caption` attempts the declared alternative
identifiers ('models/gemini-1.5-flash' then 'models/gemini-1.5-pro') in that
fixed order, stopping at the first success — its attempt trace is the primary
model followed by the trace of the uniform in-order retry loop over
`fallbackModels` — and if all attempts fail the returned terminal error
carries the original failure detail and the remediation guidance. -/
theorem C2_fallback_in_declared_order (topic tone : String) (max_length : Nat)
    (env : GeminiEnv) (error_msg : String)
    (hprim : env primaryModel (buildPrompt topic tone max_length) = .err error_msg)
    (hnf : notFoundClass error_msg = true) :
    generate_caption_attempts topic tone max_length env =
      ((tryInOrder (buildPrompt topic tone max_length) error_msg env fallbackModels).1,
       primaryModel ::
         (tryInOrder (buildPrompt topic tone max_length) error_msg env fallbackModels).2)
    ∧ containsSubstr (notFoundTerminalError error_msg) error_msg = true
    ∧ containsSubstr (notFoundTerminalError error_msg) "Please verify your API key" = true
    ∧ containsSubstr (notFoundTerminalError error_msg) "❌" = true := by
  refine ⟨?_, notFoundTerminalError_contains_orig _,
    notFoundTerminalError_contains_guidance _, notFoundTerminalError_contains_tag _⟩
  unfold generate_caption_attempts fallbackModels
  simp only [hprim, hnf, if_true]
  cases h1 : env "models/gemini-1.5-flash" (buildPrompt topic tone max_length) <;>
    cases h2 : env "models/gemini-1.5-pro" (buildPrompt topic tone max_length) <;>
      simp [tryInOrder, h1, h2]

/-- Witness for C2 at a concrete all-failing environment. -/
theorem C2_fallback_witness :
    generate_caption_attempts "Dates" "Professional" 50 envAllFail =
      ((tryInOrder (buildPrompt "Dates" "Professional" 50) "404 model not found"
          envAllFail fallbackModels).1,
       primaryModel ::
         (tryInOrder (buildPrompt "Dates" "Professional" 50) "404 model not found"
            envAllFail fallbackModels).2) :=
  (C2_fallback_in_declared_order "Dates" "Professional" 50 envAllFail
    "404 model not found" rfl (by decide)).1

/-- C4: a generation failure that is not of the not-found class is returned
immediately as the tagged generic terminal error, with no alternate model
attempted (the attempt trace is the primary model alone). -/
theorem C4_generic_failure_not_retried (topic tone : String) (max_length : Nat)
    (env : GeminiEnv) (error_msg : String)
    (hprim : env primaryModel (buildPrompt topic tone max_length) = .err error_msg)
    (hnf : notFoundClass error_msg = false) :
    generate_caption_attempts topic tone max_length env =
      (genericError error_msg, [primaryModel])
    ∧ containsSubstr (genericError error_msg) "❌" = true
    ∧ containsSubstr (genericError error_msg) error_msg = true := by
  refine ⟨?_, genericError_contains_tag _, genericError_contains_orig _⟩
  unfold generate_caption_attempts
  simp [hprim, hnf]

/-- Witness for C4 at a concrete quota-style failure. -/
theorem C4_generic_failure_witness :
    generate_caption_attempts "Dates" "Professional" 50 envQuota =
      (genericError "429 quota exceeded for this project", [primaryModel]) :=
  (C4_generic_failure_not_retried "Dates" "Professional" 50 envQuota
    "429 quota exceeded for this project" rfl (by decide)).1

/-- Counterexample to C3: a successful caption whose text contains `❌` is
classified as an error by the downstream branch (the handler displays it as an
error), so not every successful caption text is classified as success. -/
theorem C3_counterexample_emoji_caption :
    envEmojiCaption primaryModel (buildPrompt "Harvest" "Professional" 50) =
      .ok "Palm oil update: ❌ no harvest delays this week"
    ∧ generate_caption "Harvest" "Professional" 50 envEmojiCaption =
      "Palm oil update: ❌ no harvest delays this week"
    ∧ (generate_btn_handler "g" "u" "Harvest" "Professional" 50 envEmojiCaption
        netEmptyResults "2024-01-01 00:00:00" []).display =
      .errorMsg "Palm oil update: ❌ no harvest delays this week" := by
  refine ⟨rfl, rfl, ?_⟩
  rfl

/-- C3 as amended: the terminal error is tagged with `❌` and the handler
branches on the presence of `❌` in the caption text; every terminal error is
classified as an error, and every successful caption that does not itself
contain `❌` is classified as a success (a successful caption containing `❌` is
misclassified). -/
theorem C3_amended_tagged_classification (gemini_api_key unsplash_api_key topic tone now :
    String) (max_length : Nat) (env : GeminiEnv) (net : UnsplashEnv)
    (store : List ContentRecord)
    (hg : gemini_api_key ≠ "") (hu : unsplash_api_key ≠ "") (ht : topic ≠ "") :
    (caption_outcome topic tone max_length env = none →
      (generate_btn_handler gemini_api_key unsplash_api_key topic tone max_length env net
          now store).display =
        .errorMsg (generate_caption topic tone max_length env))
    ∧ ∀ text, caption_outcome topic tone max_length env = some text →
        containsSubstr text "❌" = false →
        (generate_btn_handler gemini_api_key unsplash_api_key topic tone max_length env net
            now store).display =
          (match (fetch_unsplash_image topic unsplash_api_key net).1 with
           | some img => .fullContent img text
           | none => .captionOnly text) := by
  constructor
  · intro h
    have htag := generate_caption_tag_of_outcome_none topic tone max_length env h
    simp [generate_btn_handler, hg, hu, ht, htag]
  · intro text h hc
    have hcap := generate_caption_of_outcome_some topic tone max_length env text h
    simp only [generate_btn_handler, hg, hu, ht, if_neg, ite_false, hcap, hc]
    simp only [if_true]
    cases hf : (fetch_unsplash_image topic unsplash_api_key net).1 <;> simp [hf]

/-- Witness for the amended C3 at a concrete failing environment. -/
theorem C3_amended_witness :
    (generate_btn_handler "g" "u" "Dates" "Professional" 50 envAllFail netEmptyResults
        "2024-01-01 00:00:00" []).display =
      .errorMsg (generate_caption "Dates" "Professional" 50 envAllFail) :=
  (C3_amended_tagged_classification "g" "u" "Dates" "Professional"
      "2024-01-01 00:00:00" 50 envAllFail netEmptyResults [] (by decide) (by decide)
      (by decide)).1 rfl

/-- C5: when either credential is missing or the topic is empty, the handler
emits a configuration error, makes zero outbound calls, and leaves the store
unchanged. -/
theorem C5_validation_no_outbound_calls (gemini_api_key unsplash_api_key topic tone now :
    String) (max_length : Nat) (env : GeminiEnv) (net : UnsplashEnv)
    (store : List ContentRecord)
    (h : gemini_api_key = "" ∨ unsplash_api_key = "" ∨ topic = "") :
    (∃ msg, (generate_btn_handler gemini_api_key unsplash_api_key topic tone max_length env
        net now store).display = .configError msg)
    ∧ (generate_btn_handler gemini_api_key unsplash_api_key topic tone max_length env net
        now store).calls = []
    ∧ (generate_btn_handler gemini_api_key unsplash_api_key topic tone max_length env net
        now store).store = store := by
  by_cases hg : gemini_api_key = ""
  · simp [generate_btn_handler, hg]
  · by_cases hu : unsplash_api_key = ""
    · simp [generate_btn_handler, hg, hu]
    · have ht : topic = "" := by tauto
      simp [generate_btn_handler, hg, hu, ht]

/-- Witness for C5 with the text-generation credential missing. -/
theorem C5_validation_witness :
    (generate_btn_handler "" "u" "Dates" "Professional" 50 envOkCaption netOnePhoto
        "2024-01-01 00:00:00" []).calls = [] :=
  (C5_validation_no_outbound_calls "" "u" "Dates" "Professional" "2024-01-01 00:00:00" 50
    envOkCaption netOnePhoto [] (Or.inl rfl)).2.1

/-- C6: the image lookup returns absence (`none`) both on a request failure
and on an empty result set — the caller cannot distinguish the two — and when
the lookup came back absent the handler leaves the record store unchanged, so
the lookup never results in an appended record. -/
theorem C6_lookup_failure_is_absence (topic api_key msg : String) (net : UnsplashEnv) :
    ((net (mkUnsplashRequest topic api_key) = .fail msg →
        (fetch_unsplash_image topic api_key net).1 = none)
    ∧ (net (mkUnsplashRequest topic api_key) = .ok [] →
        (fetch_unsplash_image topic api_key net).1 = none))
    ∧ ∀ (gemini_api_key tone now : String) (max_length : Nat) (env : GeminiEnv)
        (store : List ContentRecord),
        (fetch_unsplash_image topic api_key net).1 = none →
        (generate_btn_handler gemini_api_key api_key topic tone max_length env net now
          store).store = store := by
  refine ⟨⟨fun h => by simp [fetch_unsplash_image, h], fun h => by
    simp [fetch_unsplash_image, h]⟩, ?_⟩
  intro gemini_api_key tone now max_length env store hnone
  by_cases hg : gemini_api_key = "" <;> by_cases hu : api_key = "" <;>
    by_cases ht : topic = "" <;>
      simp [generate_btn_handler, hg, hu, ht, hnone, apply_ite]

/-- Witness for C6 at a concrete failing network. -/
theorem C6_lookup_failure_witness :
    (fetch_unsplash_image "Dates" "u" netFailure).1 = none :=
  (C6_lookup_failure_is_absence "Dates" "u" "ConnectionError" netFailure).1.1 rfl

/-- C9: the image lookup issues exactly one request, whose query is the topic
prefixed with the fixed keyword `palm `, with page size 1 and landscape
orientation; on a non-empty result set it returns exactly the first photo's
`urls.regular`, `urls.thumb`, `user.name`, `user.links.html` and
`links.download`. -/
theorem C9_single_request_top_match (topic api_key : String) (net : UnsplashEnv) :
    (fetch_unsplash_image topic api_key net).2 = [mkUnsplashRequest topic api_key]
    ∧ (mkUnsplashRequest topic api_key).query = "palm " ++ topic
    ∧ (mkUnsplashRequest topic api_key).per_page = 1
    ∧ (mkUnsplashRequest topic api_key).orientation = "landscape"
    ∧ ∀ photo rest, net (mkUnsplashRequest topic api_key) = .ok (photo :: rest) →
        (fetch_unsplash_image topic api_key net).1 =
          some { url := photo.urls_regular
                 thumb_url := photo.urls_thumb
                 photographer := photo.user_name
                 photographer_url := photo.user_links_html
                 download_url := photo.links_download } := by
  refine ⟨rfl, rfl, rfl, rfl, ?_⟩
  intro photo rest h
  simp [fetch_unsplash_image, h]

/-- Witness for C9 at a concrete one-photo network. -/
theorem C9_single_request_witness :
    (fetch_unsplash_image "Dates" "u" netOnePhoto).1 =
      some { url := photoW.urls_regular
             thumb_url := photoW.urls_thumb
             photographer := photoW.user_name
             photographer_url := photoW.user_links_html
             download_url := photoW.links_download } :=
  (C9_single_request_top_match "Dates" "u" netOnePhoto).2.2.2.2 photoW [] rfl

/-- The handler either leaves the store unchanged or appends exactly one
record at the end, and any appended record has all three image fields
present. -/
theorem handler_store_shape (gemini_api_key unsplash_api_key topic tone now : String)
    (max_length : Nat) (env : GeminiEnv) (net : UnsplashEnv) (store : List ContentRecord) :
    (generate_btn_handler gemini_api_key unsplash_api_key topic tone max_length env net now
        store).store = store
    ∨ ∃ rec, populated rec ∧
        (generate_btn_handler gemini_api_key unsplash_api_key topic tone max_length env net
          now store).store = store ++ [rec] := by
  by_cases hg : gemini_api_key = ""
  · exact Or.inl (by simp [generate_btn_handler, hg])
  by_cases hu : unsplash_api_key = ""
  · exact Or.inl (by simp [generate_btn_handler, hg, hu])
  by_cases ht : topic = ""
  · exact Or.inl (by simp [generate_btn_handler, hg, hu, ht])
  by_cases hc : containsSubstr (generate_caption topic tone max_length env) "❌" = false
  · cases hf : (fetch_unsplash_image topic unsplash_api_key net).1 with
    | none => exact Or.inl (by simp [generate_btn_handler, hg, hu, ht, hc, hf])
    | some image_data =>
      exact Or.inr
        ⟨{ timestamp := now, topic := topic, tone := tone,
           caption := generate_caption topic tone max_length env,
           image_url := some image_data.url,
           photographer := some image_data.photographer,
           photographer_url := some image_data.photographer_url },
         by simp [populated],
         by simp [generate_btn_handler, hg, hu, ht, hc, hf]⟩
  · exact Or.inl (by simp [generate_btn_handler, hg, hu, ht, hc])

/-- Counterexample to C1: with a successful caption and an empty image result
set, the caption is displayed but no record is appended, so "appended iff
caption generation did not terminally fail" is false. -/
theorem C1_counterexample_caption_only_not_appended :
    containsSubstr (generate_caption "Harvesting Dates" "Educational" 50 envOkCaption) "❌"
      = false
    ∧ (generate_btn_handler "g" "u" "Harvesting Dates" "Educational" 50 envOkCaption
        netEmptyResults "2024-01-01 00:00:00" []).display =
      .captionOnly "Golden dates ripening under desert palms #PalmIndustry"
    ∧ (generate_btn_handler "g" "u" "Harvesting Dates" "Educational" 50 envOkCaption
        netEmptyResults "2024-01-01 00:00:00" []).store = []
    ∧ ¬(((generate_btn_handler "g" "u" "Harvesting Dates" "Educational" 50 envOkCaption
            netEmptyResults "2024-01-01 00:00:00" []).store.length = 1)
        ↔ containsSubstr (generate_caption "Harvesting Dates" "Educational" 50 envOkCaption)
            "❌" = false) := by
  refine ⟨rfl, rfl, rfl, ?_⟩
  intro hiff
  have h1 := hiff.mpr rfl
  rw [show (generate_btn_handler "g" "u" "Harvesting Dates" "Educational" 50 envOkCaption
      netEmptyResults "2024-01-01 00:00:00" []).store = [] from rfl] at h1
  exact absurd h1 (by decide)

/-- C1 as amended: on validated input, a record is appended (the store grows
by one) iff caption generation did not terminally fail AND an image was
found; otherwise the store is unchanged. -/
theorem C1_amended_append_iff_success_and_image (gemini_api_key unsplash_api_key topic tone
    now : String) (max_length : Nat) (env : GeminiEnv) (net : UnsplashEnv)
    (store : List ContentRecord)
    (hg : gemini_api_key ≠ "") (hu : unsplash_api_key ≠ "") (ht : topic ≠ "") :
    ((generate_btn_handler gemini_api_key unsplash_api_key topic tone max_length env net
        now store).store.length = store.length + 1 ↔
      (containsSubstr (generate_caption topic tone max_length env) "❌" = false ∧
        (fetch_unsplash_image topic unsplash_api_key net).1.isSome))
    ∧ ((generate_btn_handler gemini_api_key unsplash_api_key topic tone max_length env net
          now store).store = store
      ∨ ∃ rec, (generate_btn_handler gemini_api_key unsplash_api_key topic tone max_length
          env net now store).store = store ++ [rec]) := by
  constructor
  · by_cases hc : containsSubstr (generate_caption topic tone max_length env) "❌" = false
    · cases hf : (fetch_unsplash_image topic unsplash_api_key net).1 with
      | none => simp [generate_btn_handler, hg, hu, ht, hc, hf]
      | some image_data => simp [generate_btn_handler, hg, hu, ht, hc, hf]
    · have hc' : containsSubstr (generate_caption topic tone max_length env) "❌" = true := by
        simpa using hc
      simp [generate_btn_handler, hg, hu, ht, hc']
  · rcases handler_store_shape gemini_api_key unsplash_api_key topic tone now max_length env
      net store with h | ⟨rec, _, hrec⟩
    · exact Or.inl h
    · exact Or.inr ⟨rec, hrec⟩

/-- Witness for the amended C1: success plus a found image appends exactly one
record. -/
theorem C1_amended_witness :
    (generate_btn_handler "g" "u" "Dates" "Educational" 50 envOkCaption netOnePhoto
        "2024-01-01 00:00:00" []).store.length = List.length ([] : List ContentRecord) + 1
    ↔ (containsSubstr (generate_caption "Dates" "Educational" 50 envOkCaption) "❌" = false ∧
        (fetch_unsplash_image "Dates" "u" netOnePhoto).1.isSome) :=
  (C1_amended_append_iff_success_and_image "g" "u" "Dates" "Educational"
    "2024-01-01 00:00:00" 50 envOkCaption netOnePhoto [] (by decide) (by decide)
    (by decide)).1

/-- One session action preserves the all-image-fields-present invariant. -/
theorem runOp_preserves_populated (s : List ContentRecord) (op : SessionOp)
    (h : ∀ r ∈ s, populated r) : ∀ r ∈ runOp s op, populated r := by
  cases op with
  | clearHistory => simp [runOp, clear_history]
  | generate i =>
    rcases handler_store_shape i.gemini_api_key i.unsplash_api_key i.topic i.tone i.now
      i.max_length i.env i.net s with hs | ⟨rec, hpop, hs⟩
    · intro r hr
      rw [runOp] at hr
      rw [hs] at hr
      exact h r hr
    · intro r hr
      rw [runOp] at hr
      rw [hs] at hr
      rcases List.mem_append.mp hr with hmem | hmem
      · exact h r hmem
      · rw [List.mem_singleton.mp hmem]
        exact hpop

/-- The invariant holds of every store reachable from any start store
satisfying it. -/
theorem foldl_runOp_preserves_populated (ops : List SessionOp) (s : List ContentRecord)
    (h : ∀ r ∈ s, populated r) : ∀ r ∈ ops.foldl runOp s, populated r := by
  induction ops generalizing s with
  | nil => exact h
  | cons op ops ih => exact ih _ (runOp_preserves_populated s op h)

/-- C10: every record ever present in the session store has all seven fields
populated — in particular the three image fields are present — because the
handler appends only on the branch where an image was found. -/
theorem C10_store_records_fully_populated (ops : List SessionOp) (r : ContentRecord)
    (hr : r ∈ runSession ops) : populated r :=
  foldl_runOp_preserves_populated ops [] (by simp) r hr

/-- A concrete session input whose generation succeeds and finds an image. -/
def genInputsW : GenInputs :=
  { gemini_api_key := "g", unsplash_api_key := "u", topic := "Dates"
    tone := "Educational", max_length := 50, env := envOkCaption, net := netOnePhoto
    now := "2024-01-01 00:00:00" }

/-- The record that session appends. -/
def recordW : ContentRecord :=
  { timestamp := "2024-01-01 00:00:00", topic := "Dates", tone := "Educational"
    caption := "Golden dates ripening under desert palms #PalmIndustry"
    image_url := some "https://images.unsplash.com/photo-1?w=1080"
    photographer := some "Amira Haddad"
    photographer_url := some "https://unsplash.com/@amira" }

/-- Witness for C10 at a concrete one-step session. -/
theorem C10_store_records_witness :
    recordW ∈ runSession [SessionOp.generate genInputsW] ∧ populated recordW :=
  have hm : recordW ∈ runSession [SessionOp.generate genInputsW] := by
    rw [show runSession [SessionOp.generate genInputsW] = [recordW] from rfl]
    exact List.mem_singleton.mpr rfl
  ⟨hm, C10_store_records_fully_populated [SessionOp.generate genInputsW] recordW hm⟩

/-! ## CSV reader inversion lemmas -/

theorem readBare_no_sep (f : List Char) (d : Char) (rest : List Char)
    (hf : ∀ c ∈ f, c ≠ ',' ∧ c ≠ '\n') (hd : d = ',' ∨ d = '\n') :
    readBare (f ++ d :: rest) = (f, d :: rest) := by
  induction f with
  | nil =>
    simp only [List.nil_append, readBare]
    rw [if_pos hd]
  | cons c f ih =>
    have hc := hf c (List.mem_cons_self c f)
    have ih' := ih fun x hx => hf x (List.mem_cons_of_mem c hx)
    simp only [List.cons_append, readBare]
    rw [if_neg (by tauto)]
    simp only [List.append_eq]
    rw [ih']

theorem readQuoted_escape (f : List Char) (rest : List Char)
    (hrest : rest.head? ≠ some '"') :
    readQuoted (escapeQuotes f ++ '"' :: rest) = some (f, rest) := by
  induction f with
  | nil =>
    cases rest with
    | nil => rfl
    | cons c2 cs2 =>
      have hc2 : ¬c2 = '"' := by simpa using hrest
      show readQuoted ('"' :: c2 :: cs2) = some ([], c2 :: cs2)
      simp [readQuoted, hc2]
  | cons c f ih =>
    by_cases hc : c = '"'
    · subst hc
      show readQuoted ('"' :: '"' :: (escapeQuotes f ++ '"' :: rest)) = some ('"' :: f, rest)
      simp [readQuoted, ih]
    · have he : escapeQuotes (c :: f) = c :: escapeQuotes f := by
        simp [escapeQuotes, hc]
      rw [he, List.cons_append, readQuoted.eq_def]
      simp [hc, ih]

theorem needsQuoting_false_no_special (f : List Char) (hq : ¬needsQuoting f = true) :
    ∀ c ∈ f, c ≠ ',' ∧ c ≠ '"' ∧ c ≠ '\n' ∧ c ≠ '\r' := by
  intro c hc
  refine ⟨?_, ?_, ?_, ?_⟩ <;>
    · intro habs
      apply hq
      simp only [needsQuoting, List.any_eq_true]
      exact ⟨c, hc, by simp [habs]⟩

theorem readField_encodeField (f : List Char) (d : Char) (rest : List Char)
    (hd : d = ',' ∨ d = '\n') :
    readField (encodeField f ++ d :: rest) = some (f, d :: rest) := by
  have hdq : d ≠ '"' := by rcases hd with h | h <;> simp [h]
  unfold encodeField
  by_cases hq : needsQuoting f = true
  · rw [if_pos hq]
    have hshift : ('"' :: (escapeQuotes f ++ ['"'])) ++ d :: rest =
        '"' :: (escapeQuotes f ++ '"' :: d :: rest) := by simp
    rw [hshift, readField, if_pos rfl]
    exact readQuoted_escape f (d :: rest) (by simpa using hdq)
  · rw [if_neg hq]
    have hf := needsQuoting_false_no_special f hq
    cases f with
    | nil =>
      simp only [List.nil_append, readField]
      rw [if_neg hdq]
      simp only [readBare, if_pos hd]
    | cons c f2 =>
      have hc := hf c (List.mem_cons_self c f2)
      simp only [List.cons_append, readField]
      rw [if_neg hc.2.1]
      have hbare : readBare ((c :: f2) ++ d :: rest) = (c :: f2, d :: rest) :=
        readBare_no_sep (c :: f2) d rest (fun x hx => ⟨(hf x hx).1, (hf x hx).2.2.1⟩) hd
      rw [← List.cons_append, hbare]

theorem readRow_encodeRow (fs : List (List Char)) (rest : List Char) (fuel : Nat)
    (hne : fs ≠ []) (hfuel : fs.length ≤ fuel) :
    readRow fuel (encodeRow fs ++ rest) = some (fs, rest) := by
  induction fs generalizing fuel rest with
  | nil => exact absurd rfl hne
  | cons f fs ih =>
    obtain ⟨k, rfl⟩ : ∃ k, fuel = k + 1 :=
      ⟨fuel - 1, by have := List.length_pos.mpr hne; omega⟩
    cases fs with
    | nil =>
      have hrow : encodeRow [f] ++ rest = encodeField f ++ '\n' :: rest := by
        simp [encodeRow]
      rw [hrow, readRow, readField_encodeField f '\n' rest (Or.inr rfl)]
      simp
    | cons f2 fs2 =>
      have hrow : encodeRow (f :: f2 :: fs2) ++ rest =
          encodeField f ++ ',' :: (encodeRow (f2 :: fs2) ++ rest) := by
        simp [encodeRow]
      rw [hrow, readRow, readField_encodeField f ',' (encodeRow (f2 :: fs2) ++ rest)
        (Or.inl rfl)]
      have hrec := ih rest k (by simp) (by simp only [List.length_cons] at hfuel ⊢; omega)
      simp [hrec]

theorem encodeRow_length_ge (fs : List (List Char)) : fs.length ≤ (encodeRow fs).length := by
  induction fs with
  | nil => simp [encodeRow]
  | cons f fs ih =>
    cases fs with
    | nil => simp [encodeRow]
    | cons f2 fs2 =>
      simp only [encodeRow, List.length_append, List.length_cons] at *
      omega

theorem encodeRow_ne_nil (fs : List (List Char)) : encodeRow fs ≠ [] := by
  cases fs with
  | nil => simp [encodeRow]
  | cons f fs =>
    cases fs with
    | nil => simp [encodeRow]
    | cons f2 fs2 => simp [encodeRow]

theorem length_le_flatMap_encodeRow (rows : List (List (List Char))) :
    rows.length ≤ (rows.flatMap encodeRow).length := by
  induction rows with
  | nil => simp
  | cons row rows ih =>
    simp only [List.flatMap_cons, List.length_append, List.length_cons]
    have h1 : 1 ≤ (encodeRow row).length := by
      cases h : encodeRow row with
      | nil => exact absurd h (encodeRow_ne_nil row)
      | cons a l => simp
    omega

theorem readRows_succ (fuel : Nat) (input : List Char) (h : input ≠ []) :
    readRows (fuel + 1) input =
      match readRow (input.length + 1) input with
      | none => none
      | some (row, rest) => (readRows fuel rest).map fun rows => row :: rows := by
  cases input with
  | nil => exact absurd rfl h
  | cons c cs => rfl

theorem readRows_encode (rows : List (List (List Char))) (fuel : Nat)
    (hrows : ∀ row ∈ rows, row ≠ []) (hfuel : rows.length ≤ fuel) :
    readRows fuel (rows.flatMap encodeRow) = some rows := by
  induction rows generalizing fuel with
  | nil => cases fuel <;> rfl
  | cons row rows ih =>
    obtain ⟨k, rfl⟩ : ∃ k, fuel = k + 1 :=
      ⟨fuel - 1, by simp only [List.length_cons] at hfuel; omega⟩
    have hne : row ≠ [] := hrows row (List.mem_cons_self row rows)
    have hflat : (row :: rows).flatMap encodeRow =
        encodeRow row ++ rows.flatMap encodeRow := by simp
    have hinput_ne : (row :: rows).flatMap encodeRow ≠ [] := by
      rw [hflat]
      intro habs
      exact encodeRow_ne_nil row (List.append_eq_nil.mp habs).1
    rw [readRows_succ k _ hinput_ne, hflat]
    have hrowfuel : row.length ≤ (encodeRow row ++ rows.flatMap encodeRow).length + 1 := by
      have h1 := encodeRow_length_ge row
      simp only [List.length_append]
      omega
    rw [readRow_encodeRow row (rows.flatMap encodeRow) _ hne hrowfuel]
    have hrec := ih k (fun r hr => hrows r (List.mem_cons_of_mem row hr))
      (by simp only [List.length_cons] at hfuel; omega)
    simp [hrec]

theorem mk_data_eq (s : String) : String.mk s.data = s := by
  cases s
  rfl

theorem map_mk_map_data (l : List String) : (l.map String.data).map String.mk = l := by
  rw [List.map_map]
  have h : (String.mk ∘ String.data) = id := by
    funext s
    cases s
    rfl
  rw [h, List.map_id]

/-- The CSV export parses back to exactly the header row followed by one row
of cell values per record, in insertion order. -/
theorem csv_roundtrip_aux (store : List ContentRecord) :
    parseCsv (exportCsv store) = some (csvHeaderFields :: store.map recordFields) := by
  unfold parseCsv exportCsv
  have hrows : ∀ row ∈ (csvHeaderFields.map String.data ::
      store.map fun r => (recordFields r).map String.data), row ≠ [] := by
    intro row hr
    rcases List.mem_cons.mp hr with h | h
    · subst h; simp [csvHeaderFields]
    · obtain ⟨r, _, rfl⟩ := List.mem_map.mp h
      simp [recordFields]
  have hfuel : (csvHeaderFields.map String.data ::
        store.map fun r => (recordFields r).map String.data).length ≤
      ((csvHeaderFields.map String.data ::
        store.map fun r => (recordFields r).map String.data).flatMap encodeRow).length + 1 := by
    have := length_le_flatMap_encodeRow (csvHeaderFields.map String.data ::
      store.map fun r => (recordFields r).map String.data)
    omega
  rw [show (String.mk ((csvHeaderFields.map String.data ::
      store.map fun r => (recordFields r).map String.data).flatMap encodeRow)).data =
      (csvHeaderFields.map String.data ::
        store.map fun r => (recordFields r).map String.data).flatMap encodeRow from rfl]
  rw [readRows_encode _ _ hrows hfuel]
  show some ((csvHeaderFields.map String.data ::
      store.map fun r => (recordFields r).map String.data).map (List.map String.mk)) =
    some (csvHeaderFields :: store.map recordFields)
  simp only [List.map_cons, map_mk_map_data, List.map_map, Function.comp_def, mk_data_eq,
    List.map_id, List.map_id']

/-- C7: for every store of appended records, the CSV export carries exactly
the claimed header, then one row per record in insertion order with every
field appearing exactly once — parsing the export returns precisely the header
row followed by each record's seven cell values — and each fully-populated
record is reconstructible from its row. -/
theorem C7_csv_export_roundtrip (store : List ContentRecord)
    (hpop : ∀ r ∈ store, populated r) :
    parseCsv (exportCsv store) = some (csvHeaderFields :: store.map recordFields)
    ∧ csvHeaderFields = ["timestamp", "topic", "tone", "caption", "image_url",
        "photographer", "photographer_url"]
    ∧ ∀ r ∈ store, recordOfFields (recordFields r) = some r := by
  refine ⟨csv_roundtrip_aux store, rfl, ?_⟩
  intro r hr
  obtain ⟨h1, h2, h3⟩ := hpop r hr
  cases r with
  | mk timestamp topic tone caption image_url photographer photographer_url =>
    obtain ⟨u, rfl⟩ := Option.isSome_iff_exists.mp h1
    obtain ⟨p, rfl⟩ := Option.isSome_iff_exists.mp h2
    obtain ⟨q, rfl⟩ := Option.isSome_iff_exists.mp h3
    rfl

/-- A record whose caption contains a comma, quotes and a newline, to
exercise CSV quoting. -/
def recordCsvW : ContentRecord :=
  { timestamp := "2024-01-01 00:00:00", topic := "Dates, premium"
    tone := "Professional"
    caption := "Line one\n\"Quoted\", and more"
    image_url := some "https://images.unsplash.com/photo-2"
    photographer := some "Lina Osei"
    photographer_url := some "https://unsplash.com/@lina" }

/-- Witness for C7 on a one-record store whose caption needs quoting. -/
theorem C7_csv_export_witness :
    parseCsv (exportCsv [recordCsvW]) =
      some (csvHeaderFields :: [recordCsvW].map recordFields)
    ∧ recordOfFields (recordFields recordCsvW) = some recordCsvW :=
  have h := C7_csv_export_roundtrip [recordCsvW] (by decide)
  ⟨h.1, h.2.2 recordCsvW (List.mem_singleton.mpr rfl)⟩

/-- C8: the record store only grows by a single append (existing records stay
untouched as a prefix) or is wholly cleared; `clear` discards all records
unconditionally; and after `clear` the table view has zero rows and the CSV
export parses to the header row alone. -/
theorem C8_append_only_or_cleared :
    (∀ (gemini_api_key unsplash_api_key topic tone now : String) (max_length : Nat)
        (env : GeminiEnv) (net : UnsplashEnv) (store : List ContentRecord),
        ((generate_btn_handler gemini_api_key unsplash_api_key topic tone max_length env
            net now store).store = store
          ∨ ∃ rec, (generate_btn_handler gemini_api_key unsplash_api_key topic tone
              max_length env net now store).store = store ++ [rec])
        ∧ store <+: (generate_btn_handler gemini_api_key unsplash_api_key topic tone
            max_length env net now store).store)
    ∧ (∀ store, clear_history store = [])
    ∧ (∀ store, asTable (clear_history store) = [])
    ∧ (∀ store, parseCsv (exportCsv (clear_history store)) = some [csvHeaderFields]) := by
  refine ⟨?_, fun _ => rfl, fun _ => rfl, fun _ => ?_⟩
  · intro gemini_api_key unsplash_api_key topic tone now max_length env net store
    rcases handler_store_shape gemini_api_key unsplash_api_key topic tone now max_length env
      net store with h | ⟨rec, _, h⟩
    · exact ⟨Or.inl h, by rw [h]⟩
    · exact ⟨Or.inr ⟨rec, h⟩, by rw [h]; exact List.prefix_append store [rec]⟩
  · simpa using csv_roundtrip_aux []

end PalmAgent
